import Mathlib

/-!
Verification development for the osrs_tools library
(highscores fetching/parsing, real-time price checking, ironman probe).

Python dictionaries are modelled as association lists with insertion-order
semantics: an insert of an existing key updates the value in place (keeping
the key position), and an insert of a new key appends at the end, matching
CPython dict behaviour.  Raising Python exceptions is modelled with Except;
the sequence of HTTP responses an endpoint would return is passed in as a
list (attempt i reads element i).  Strings are ASCII here: Char.toLower
agrees with Python str.lower on ASCII.
-/

namespace OsrsTools

instance {ε α : Type} [DecidableEq ε] [DecidableEq α] : DecidableEq (Except ε α)
  | .ok a, .ok b =>
    if h : a = b then isTrue (by rw [h])
    else isFalse (by intro he; cases he; exact h rfl)
  | .ok _, .error _ => isFalse (by intro h; cases h)
  | .error _, .ok _ => isFalse (by intro h; cases h)
  | .error a, .error b =>
    if h : a = b then isTrue (by rw [h])
    else isFalse (by intro he; cases he; exact h rfl)

/-- Python dict assignment d[k] = v: update in place if present, else append. -/
def dinsert {β : Type} (k : String) (v : β) : List (String × β) → List (String × β)
  | [] => [(k, v)]
  | (k', v') :: rest => if k' = k then (k, v) :: rest else (k', v') :: dinsert k v rest

/-- Python dict read d[k], none modelling a KeyError. -/
def dlookup {β : Type} (k : String) : List (String × β) → Option β
  | [] => none
  | (k', v) :: rest => if k' = k then some v else dlookup k rest

/-- Keys of a modelled dict, in iteration order. -/
def dkeys {β : Type} (d : List (String × β)) : List String := d.map Prod.fst

theorem dlookup_dinsert {β : Type} (k k' : String) (v : β) (d : List (String × β)) :
    dlookup k (dinsert k' v d) = if k' = k then some v else dlookup k d := by
  induction d with
  | nil => simp [dinsert, dlookup]
  | cons hd tl ih =>
    obtain ⟨k₀, v₀⟩ := hd
    by_cases h0 : k₀ = k'
    · subst h0
      by_cases h1 : k₀ = k <;> simp [dinsert, dlookup, h1]
    · by_cases h1 : k₀ = k
      · subst h1
        have hne : k' ≠ k₀ := fun h => h0 h.symm
        simp [dinsert, dlookup, h0, hne]
      · simp [dinsert, dlookup, h0, h1, ih]

/-- Python str.lower (ASCII model). -/
def strLower (s : String) : String := ⟨s.data.map Char.toLower⟩

/-- Python key.startswith(q), on the underlying character lists. -/
def pyStartswith (s p : String) : Bool := p.data.isPrefixOf s.data

/-- Python whitespace characters stripped by str.strip / int(). -/
def pyIsSpace (c : Char) : Bool :=
  c = ' ' || c = '\t' || c = '\n' || c = '\x0d' || c = '\x0b' || c = '\x0c'

/-- Python str.strip on a character list. -/
def pyStrip (cs : List Char) : List Char :=
  ((cs.dropWhile pyIsSpace).reverse.dropWhile pyIsSpace).reverse

def isDig (c : Char) : Bool := '0' ≤ c && c ≤ '9'

/-- Digit run of a Python int literal after the sign: digits with optional
single underscores between digits. -/
def pyDigitsAux : Nat → List Char → Option Nat
  | acc, [] => some acc
  | acc, c :: rest =>
    if isDig c then pyDigitsAux (10 * acc + (c.toNat - 48)) rest
    else if c = '_' then
      match rest with
      | [] => none
      | d :: rest' =>
        if isDig d then pyDigitsAux (10 * acc + (d.toNat - 48)) rest' else none
    else none

def pyDigits : List Char → Option Nat
  | [] => none
  | c :: rest => if isDig c then pyDigitsAux 0 (c :: rest) else none

/-- Python int(query) for str arguments: strip whitespace, optional sign,
nonempty digit run; none models the ValueError. -/
def pyInt (s : String) : Option Int :=
  match pyStrip s.data with
  | '+' :: rest => (pyDigits rest).map Int.ofNat
  | '-' :: rest => (pyDigits rest).map (fun n => -(n : Int))
  | cs => (pyDigits cs).map Int.ofNat

/-- Python str(n) for an int. -/
def intToStr (n : Int) : String := toString n

/-! ## realtimeprices.py -/

/-- One entry of the /mapping response: an item id and display name. -/
structure MapEntry where
  id : Int
  name : String
deriving Repr, DecidableEq

/-- One value of the "data" object in a /latest response. -/
structure LatestEntryJson where
  high : Int
  low : Int
  highTime : Int
  lowTime : Int
deriving Repr, DecidableEq

/-- LatestRTPriceInfo: price data for a single item from the /latest endpoint. -/
structure LatestRTPriceInfo where
  item_id : String
  high : Int
  low : Int
  high_time : Int
  low_time : Int
deriving Repr, DecidableEq

/-- Errors raised by the price-checker code paths. -/
inductive RTError where
  /-- The assert on user_agent in BaseRTPriceChecker.__init__ (AssertionError). -/
  | configError
  /-- ValueError from a retry loop after exhausting retries, with last status. -/
  | upstream (status : Nat)
  /-- KeyError from a direct dict read. -/
  | keyError (key : String)
  /-- KeyError raised by _get_price_info_from_string when no id matched. -/
  | noIdFound (query : String)
  /-- Modelling artifact: the supplied response list was too short. -/
  | noResponse
deriving Repr, DecidableEq

/-- An HTTP response: status code plus already-decoded body. -/
structure HttpResp (α : Type) where
  status : Nat
  body : α
deriving Repr, DecidableEq

/-- Mutable state of a LatestRTPriceChecker. -/
structure CheckerState where
  user_agent : String
  endpoint : String
  item_name_map : List (String × String)
  item_id_map : List (String × String)
  itemdata : List (String × LatestRTPriceInfo)
  last_updated : Option Nat
  keep_updated : Bool
deriving Repr, DecidableEq

/-- Fixed suffix appended to the caller-supplied user agent string. -/
def uaSuffix : String := " via osrs-tools by https://github.com/cdfisher"

/-- Retry loop of BaseRTPriceChecker._build_item_maps and _fetch_data:
retry while status > 399, raising after max_retries extra attempts. -/
def rtFetchLoop {α : Type} (maxRetries : Nat) : Nat → List (HttpResp α) → Except RTError α
  | _, [] => .error .noResponse
  | n, r :: rest =>
    if r.status > 399 then
      if n + 1 > maxRetries then .error (.upstream r.status)
      else rtFetchLoop maxRetries (n + 1) rest
    else .ok r.body

/-- BaseRTPriceChecker._build_item_maps, fetch part (max_retries = 5). -/
def mappingFetch (responses : List (HttpResp (List MapEntry))) :
    Except RTError (List MapEntry) :=
  rtFetchLoop 5 0 responses

/-- BaseRTPriceChecker._fetch_data for the /latest endpoint (max_retries = 5);
the successful body is the "data" member of the decoded JSON. -/
def rtFetchData (responses : List (HttpResp (List (String × LatestEntryJson)))) :
    Except RTError (List (String × LatestEntryJson)) :=
  rtFetchLoop 5 0 responses

/-- Loop of _build_item_maps that fills item_name_map and item_id_map
from the mapping document, in document order. -/
def buildMaps (mapping : List MapEntry) :
    List (String × String) × List (String × String) :=
  mapping.foldl
    (fun maps e =>
      (dinsert (strLower e.name) (intToStr e.id) maps.1,
       dinsert (intToStr e.id) e.name maps.2))
    ([], [])

/-- BaseRTPriceChecker.__init__ followed by _build_item_maps: asserts the
user agent, sets headers/endpoint, initializes itemdata empty, then fetches
the mapping and builds both lookup tables. -/
def checkerInit (userAgent : Option String) (endpoint : String) (keepUpdated : Bool)
    (mappingResponses : List (HttpResp (List MapEntry))) : Except RTError CheckerState :=
  match userAgent with
  | none => .error .configError
  | some ua =>
    if ua = "" then .error .configError
    else
      match mappingFetch mappingResponses with
      | .error e => .error e
      | .ok mapping =>
        let maps := buildMaps mapping
        .ok { user_agent := ua ++ uaSuffix
              endpoint := endpoint
              item_name_map := maps.1
              item_id_map := maps.2
              itemdata := []
              last_updated := none
              keep_updated := keepUpdated }

/-- BaseRTPriceChecker._get_item_id scan: first key in iteration order that
starts with the (already lowercased) query; none models the -1 sentinel. -/
def scanNameMap (q : String) : List (String × String) → Option String
  | [] => none
  | (k, v) :: rest => if pyStartswith k q then some v else scanNameMap q rest

/-- BaseRTPriceChecker._get_item_id. -/
def getItemId (st : CheckerState) (query : String) : Option String :=
  scanNameMap (strLower query) st.item_name_map

/-- BaseRTPriceChecker._get_price_info_from_id: direct dict read. -/
def getPriceInfoFromId (st : CheckerState) (itemId : String) :
    Except RTError LatestRTPriceInfo :=
  match dlookup itemId st.itemdata with
  | some info => .ok info
  | none => .error (.keyError itemId)

/-- BaseRTPriceChecker._get_price_info_from_string: prefix resolution, then
dict read of the resolved id. -/
def getPriceInfoFromString (st : CheckerState) (queryString : String) :
    Except RTError LatestRTPriceInfo :=
  match getItemId st queryString with
  | none => .error (.noIdFound queryString)
  | some itemId =>
    match dlookup itemId st.itemdata with
    | some info => .ok info
    | none => .error (.keyError itemId)

/-- BaseRTPriceChecker.get_price_info: int(query) succeeding routes to the
id path with str(int(query)); ValueError routes to the string path. -/
def getPriceInfo (st : CheckerState) (query : String) :
    Except RTError LatestRTPriceInfo :=
  match pyInt query with
  | some n => getPriceInfoFromId st (intToStr n)
  | none => getPriceInfoFromString st query

/-- LatestRTPriceChecker._process_data: writes one LatestRTPriceInfo per key
of the fetched document into itemdata (no clearing), then stamps
last_updated; now models datetime.datetime.now(). -/
def processData (st : CheckerState) (data : List (String × LatestEntryJson))
    (now : Nat) : CheckerState :=
  { st with
    itemdata := data.foldl
      (fun acc kv =>
        dinsert kv.1
          ⟨kv.1, kv.2.high, kv.2.low, kv.2.highTime, kv.2.lowTime⟩ acc)
      st.itemdata
    last_updated := some now }

/-- LatestRTPriceChecker.update: fetch then process. -/
def checkerUpdate (st : CheckerState)
    (responses : List (HttpResp (List (String × LatestEntryJson)))) (now : Nat) :
    Except RTError CheckerState :=
  match rtFetchData responses with
  | .error e => .error e
  | .ok data => .ok (processData st data now)

/-! ## resources/url_builder.py -/

/-- url_builder._parse_target: the 10-entry category table; none models the
ValueError for an invalid target. -/
def parseTarget (target : String) : Option String :=
  if target = "default" then some "hiscore_oldschool"
  else if target = "ironman" then some "hiscore_oldschool_ironman"
  else if target = "ultimate" then some "hiscore_oldschool_ultimate"
  else if target = "hardcore_ironman" then some "hiscore_oldschool_hardcore_ironman"
  else if target = "seasonal" then some "hiscore_oldschool_seasonal"
  else if target = "deadman" then some "hiscore_oldschool_deadman"
  else if target = "tournament" then some "hiscore_oldschool_tournament"
  else if target = "fresh_start" then some "hiscore_oldschool_fresh_start"
  else if target = "skiller" then some "hiscore_oldschool_skiller"
  else if target = "skiller_defence" then some "hiscore_oldschool_skiller_defence"
  else none

/-- url_builder.build_url. -/
def buildUrl (target rsn : String) : Option String :=
  (parseTarget target).map
    (fun slug =>
      "https://secure.runescape.com/m=" ++ slug ++ "/index_lite.json?player=" ++ rsn)

/-! ## highscores.py

The canonical reference tables (skill_attributes, activity_attributes,
boss_attributes, entries_dict, n_skills, n_activities, n_bosses) come from
resources/entries.py, which is not present in the repository snapshot;
they are therefore modelled from the spec as an explicit table parameter. -/

/-- Modelled from the spec: the contents of resources/entries.py, absent
from the repository snapshot.  The canonical ordered list of skill
attribute keys (23 in the reference table), activity attribute keys, boss
attribute keys, and the combined upstream-name to attribute-key table
entries_dict.  The counts n_skills, n_activities, n_bosses are the lengths
of the three lists. -/
structure EntriesTable where
  skill_attributes : List String
  activity_attributes : List String
  boss_attributes : List String
  entries_dict : List (String × String)
deriving Repr, DecidableEq

/-- One element of the "skills" array of an index_lite.json document. -/
structure HsSkillJson where
  name : String
  rank : Int
  level : Int
  xp : Int
deriving Repr, DecidableEq

/-- One element of the "activities" array of an index_lite.json document. -/
structure HsActivityJson where
  name : String
  rank : Int
  score : Int
deriving Repr, DecidableEq

/-- A decoded index_lite.json document. -/
structure HsDoc where
  skills : List HsSkillJson
  activities : List HsActivityJson
deriving Repr, DecidableEq

/-- A value stored on a Highscores object by dynamic attribute assignment:
a SkillEntry, ActivityEntry, or BossEntry. -/
inductive HsEntry where
  | skill (rank level xp : Int)
  | activity (rank score : Int)
  | boss (rank kc : Int)
deriving Repr, DecidableEq

/-- The dynamic attribute store of a Highscores object. -/
abbrev HsStore : Type := List (String × HsEntry)

/-- Errors raised by the highscores code paths. -/
inductive HsError where
  /-- ValueError from build_url on an invalid target. -/
  | invalidCategory (target : String)
  /-- ValueError raised after six consecutive 404 responses. -/
  | notFound (rsn : String)
  /-- Uncaught IndexError reading data["activities"][i] past its end. -/
  | indexError (idx : Nat)
  /-- AttributeError from __getattribute__ on a never-assigned attribute. -/
  | attrError (attr : String)
  /-- Modelling artifact: the supplied response list was too short. -/
  | noResponse
deriving Repr, DecidableEq

/-- Retry loop of Highscores._fetch_data: retry only while the status is
exactly 404, raising after max_retries extra attempts; any other status
proceeds to decode the body. -/
def hsFetchLoop {α : Type} (rsn : String) (maxRetries : Nat) :
    Nat → List (HttpResp α) → Except HsError α
  | _, [] => .error .noResponse
  | n, r :: rest =>
    if r.status = 404 then
      if n + 1 > maxRetries then .error (.notFound rsn)
      else hsFetchLoop rsn maxRetries (n + 1) rest
    else .ok r.body

/-- Highscores._fetch_data (max_retries = 5), including the build_url call
made before the first request. -/
def hsFetchData (rsn target : String) (responses : List (HttpResp HsDoc)) :
    Except HsError HsDoc :=
  match parseTarget target with
  | none => .error (.invalidCategory target)
  | some _ => hsFetchLoop rsn 5 0 responses

/-- Skills loop of Highscores._parse_data: iterates over the skills array of the document, assigning the attribute named by entries_dict when the name
is recognized and warning-and-skipping (KeyError caught) otherwise. -/
def parseSkills (ed : List (String × String)) (store : HsStore) :
    List HsSkillJson → HsStore
  | [] => store
  | e :: rest =>
    match dlookup e.name ed with
    | some attr => parseSkills ed (dinsert attr (.skill e.rank e.level e.xp) store) rest
    | none => parseSkills ed store rest

/-- Activities/bosses loops of Highscores._parse_data: reads
data["activities"][i] for i in [start, start+count), assigning the
attribute named by entries_dict when recognized and skipping otherwise;
an out-of-range index is an uncaught IndexError. -/
def parseActsLoop (ed : List (String × String)) (mk : HsActivityJson → HsEntry)
    (acts : List HsActivityJson) : Nat → Nat → HsStore → Except HsError HsStore
  | _, 0, store => .ok store
  | i, count + 1, store =>
    match acts.get? i with
    | none => .error (.indexError i)
    | some e =>
      match dlookup e.name ed with
      | some attr => parseActsLoop ed mk acts (i + 1) count (dinsert attr (mk e) store)
      | none => parseActsLoop ed mk acts (i + 1) count store

/-- Highscores._parse_data: skills loop, activities loop over the first
n_activities entries, boss loop over the next n_bosses entries at offset
n_activities. -/
def parseData (t : EntriesTable) (store : HsStore) (data : HsDoc) :
    Except HsError HsStore :=
  let s1 := parseSkills t.entries_dict store data.skills
  match parseActsLoop t.entries_dict (fun e => .activity e.rank e.score)
      data.activities 0 t.activity_attributes.length s1 with
  | .error e => .error e
  | .ok s2 =>
    parseActsLoop t.entries_dict (fun e => .boss e.rank e.score)
      data.activities t.activity_attributes.length t.boss_attributes.length s2

/-- Highscores.__init__: fetch then parse into a fresh (empty) attribute
store. -/
def hsBuildSnapshot (t : EntriesTable) (rsn target : String)
    (responses : List (HttpResp HsDoc)) : Except HsError HsStore :=
  match hsFetchData rsn target responses with
  | .error e => .error e
  | .ok doc => parseData t [] doc

/-- Error-propagating map used to model the accessor loops: the first
raised exception aborts the whole loop. -/
def exceptMap {ε α β : Type} (f : α → Except ε β) : List α → Except ε (List β)
  | [] => .ok []
  | a :: rest =>
    match f a with
    | .error e => .error e
    | .ok b =>
      match exceptMap f rest with
      | .error e => .error e
      | .ok bs => .ok (b :: bs)

/-- Body of the skills part of get_all_scores / get_all_xp: read the xp
attribute of the stored entry, floored at 0; a never-assigned attribute or
a non-skill entry raises AttributeError. -/
def readSkillXp (store : HsStore) (attr : String) : Except HsError Int :=
  match dlookup attr store with
  | some (.skill _ _ xp) => .ok (if xp ≤ 0 then 0 else xp)
  | _ => .error (.attrError attr)

/-- Body of get_all_levels: the level attribute floored at 1. -/
def readSkillLevel (store : HsStore) (attr : String) : Except HsError Int :=
  match dlookup attr store with
  | some (.skill _ level _) => .ok (if level ≤ 1 then 1 else level)
  | _ => .error (.attrError attr)

/-- Body of get_all_activity_scores: the score attribute floored at 0. -/
def readActivityScore (store : HsStore) (attr : String) : Except HsError Int :=
  match dlookup attr store with
  | some (.activity _ score) => .ok (if score ≤ 0 then 0 else score)
  | _ => .error (.attrError attr)

/-- Body of get_all_kc: the kc attribute floored at 0. -/
def readBossKc (store : HsStore) (attr : String) : Except HsError Int :=
  match dlookup attr store with
  | some (.boss _ kc) => .ok (if kc ≤ 0 then 0 else kc)
  | _ => .error (.attrError attr)

/-- Highscores.get_all_scores: xp for each skill, then score for each
activity, then kc for each boss, in canonical order. -/
def getAllScores (t : EntriesTable) (store : HsStore) : Except HsError (List Int) :=
  match exceptMap (readSkillXp store) t.skill_attributes with
  | .error e => .error e
  | .ok xs =>
    match exceptMap (readActivityScore store) t.activity_attributes with
    | .error e => .error e
    | .ok ys =>
      match exceptMap (readBossKc store) t.boss_attributes with
      | .error e => .error e
      | .ok zs => .ok (xs ++ ys ++ zs)

/-- Highscores.get_all_levels. -/
def getAllLevels (t : EntriesTable) (store : HsStore) : Except HsError (List Int) :=
  exceptMap (readSkillLevel store) t.skill_attributes

/-- Highscores.get_all_xp. -/
def getAllXp (t : EntriesTable) (store : HsStore) : Except HsError (List Int) :=
  exceptMap (readSkillXp store) t.skill_attributes

/-- Highscores.get_all_activity_scores. -/
def getAllActivityScores (t : EntriesTable) (store : HsStore) : Except HsError (List Int) :=
  exceptMap (readActivityScore store) t.activity_attributes

/-- Highscores.get_all_kc. -/
def getAllKc (t : EntriesTable) (store : HsStore) : Except HsError (List Int) :=
  exceptMap (readBossKc store) t.boss_attributes

/-! ## resources/utils.py -/

/-- Retry loop of the local _query_hs inside is_ironman: retries while the
status is greater than 399, raising ValueError after exhausting retries;
only statuses matter, so the loop consumes a list of status codes. -/
def queryHsLoop (rsn : String) (maxRetries : Nat) :
    Nat → List Nat → Except HsError Unit
  | _, [] => .error .noResponse
  | n, s :: rest =>
    if s > 399 then
      if n + 1 > maxRetries then .error (.notFound rsn)
      else queryHsLoop rsn maxRetries (n + 1) rest
    else .ok ()

/-- The local _query_hs of is_ironman (max_retries = 5), including the build_url call. -/
def queryHs (rsn endpoint : String) (statuses : List Nat) : Except HsError Unit :=
  match parseTarget endpoint with
  | none => .error (.invalidCategory endpoint)
  | some _ => queryHsLoop rsn 5 0 statuses

/-- Whether a modelled highscores error corresponds to a Python ValueError
(caught by the except ValueError clauses in is_ironman). -/
def isValueError : HsError → Bool
  | .notFound _ => true
  | .invalidCategory _ => true
  | _ => false

/-- utils.is_ironman: query the ironman category; on success true; on
ValueError fall back to the default category; on success false; on
ValueError raise the player-not-found ValueError. -/
def isIronman (rsn : String) (ironStatuses defStatuses : List Nat) :
    Except HsError Bool :=
  match queryHs rsn "ironman" ironStatuses with
  | .ok _ => .ok true
  | .error e =>
    if isValueError e then
      match queryHs rsn "default" defStatuses with
      | .ok _ => .ok false
      | .error e' =>
        if isValueError e' then .error (.notFound rsn) else .error e'
    else .error e

/-! ## Spec-side definitions used for refinement comparisons -/

/-- Written from the wording of the spec for prefix resolution: lowercase the
query, then return the id of the first name in the natural iteration
order of the table whose (lowercase) form starts with the query. -/
def resolveFirstMatch (nameMap : List (String × String)) (query : String) :
    Option String :=
  (nameMap.find? (fun kv => pyStartswith kv.1 (strLower query))).map Prod.snd

/-- Several sequential update calls, each with its own response list and
timestamp; the first raised exception propagates. -/
def runUpdates (st : CheckerState) :
    List (List (HttpResp (List (String × LatestEntryJson))) × Nat) →
      Except RTError CheckerState
  | [] => .ok st
  | (rs, now) :: rest =>
    match checkerUpdate st rs now with
    | .error e => .error e
    | .ok st' => runUpdates st' rest

/-! ## Helper lemmas -/

theorem dlookup_eq_none_of_not_mem {β : Type} (k : String) (d : List (String × β))
    (h : k ∉ dkeys d) : dlookup k d = none := by
  induction d with
  | nil => rfl
  | cons hd tl ih =>
    simp [dkeys] at h
    simp [dlookup, h.1, ih (by simp [dkeys, h.2])]
    intro he; exact absurd he.symm h.1

theorem exceptMap_ok_length {ε α β : Type} (f : α → Except ε β) (l : List α)
    (ys : List β) (h : exceptMap f l = .ok ys) : ys.length = l.length := by
  induction l generalizing ys with
  | nil => simp [exceptMap] at h; subst h; rfl
  | cons a rest ih =>
    simp only [exceptMap] at h
    cases hf : f a with
    | error e => rw [hf] at h; exact absurd h (by simp)
    | ok b =>
      rw [hf] at h
      cases hr : exceptMap f rest with
      | error e => rw [hr] at h; exact absurd h (by simp)
      | ok bs =>
        rw [hr] at h
        cases h
        simp [ih bs hr]

theorem scanNameMap_eq_find (q : String) (l : List (String × String)) :
    scanNameMap q l = (l.find? (fun kv => pyStartswith kv.1 q)).map Prod.snd := by
  induction l with
  | nil => rfl
  | cons hd tl ih =>
    obtain ⟨k, v⟩ := hd
    by_cases h : pyStartswith k q
    · simp [scanNameMap, List.find?, h]
    · simp [scanNameMap, List.find?, h, ih]

theorem dlookup_processFold (old : List (String × LatestRTPriceInfo))
    (data : List (String × LatestEntryJson)) (k : String)
    (hnd : (dkeys data).Nodup) :
    dlookup k (data.foldl
        (fun acc kv =>
          dinsert kv.1 ⟨kv.1, kv.2.high, kv.2.low, kv.2.highTime, kv.2.lowTime⟩ acc)
        old)
      = match dlookup k data with
        | some e => some ⟨k, e.high, e.low, e.highTime, e.lowTime⟩
        | none => dlookup k old := by
  induction data generalizing old with
  | nil => simp [dlookup]
  | cons hd tl ih =>
    obtain ⟨k₀, e₀⟩ := hd
    simp only [dkeys, List.map, List.nodup_cons] at hnd
    simp only [List.foldl]
    rw [ih _ (hnd.2)]
    by_cases h : k₀ = k
    · subst h
      have hnone : dlookup k₀ tl = none :=
        dlookup_eq_none_of_not_mem _ _ (by simpa [dkeys] using hnd.1)
      simp [dlookup, hnone, dlookup_dinsert]
    · simp only [dlookup, h, if_neg h]
      cases htl : dlookup k tl with
      | some e => simp
      | none => simp [dlookup_dinsert, h]

/-! ## Concrete fixtures used by witnesses and counterexamples -/

/-- A small concrete instance of the spec-modelled canonical tables, used
to evaluate the parsing and accessor machinery on concrete documents. -/
def sampleTable : EntriesTable :=
  { skill_attributes := ["attack", "defence"]
    activity_attributes := ["clue_all"]
    boss_attributes := ["zulrah"]
    entries_dict :=
      [("Attack", "attack"), ("Defence", "defence"),
       ("Clue Scrolls (all)", "clue_all"), ("Zulrah", "zulrah")] }

/-- A full document aligned with sampleTable. -/
def sampleDoc : HsDoc :=
  { skills := [⟨"Attack", 1000, 99, 13034431⟩, ⟨"Defence", 2000, 80, 1986068⟩]
    activities := [⟨"Clue Scrolls (all)", 5000, 42⟩, ⟨"Zulrah", 300, 1500⟩] }

/-- The attribute store produced by parsing sampleDoc against sampleTable. -/
def sampleStore : HsStore :=
  [("attack", .skill 1000 99 13034431), ("defence", .skill 2000 80 1986068),
   ("clue_all", .activity 5000 42), ("zulrah", .boss 300 1500)]

/-- A document in which the second skill carries a name that is not in the
canonical table, so its entry is warned about and skipped. -/
def skewDoc : HsDoc :=
  { skills := [⟨"Attack", 1000, 99, 13034431⟩, ⟨"Sailing", 2000, 80, 1986068⟩]
    activities := [⟨"Clue Scrolls (all)", 5000, 42⟩, ⟨"Zulrah", 300, 1500⟩] }

/-- The store produced by parsing skewDoc: no defence attribute was set. -/
def skewStore : HsStore :=
  [("attack", .skill 1000 99 13034431), ("clue_all", .activity 5000 42),
   ("zulrah", .boss 300 1500)]

/-- A concrete price-checker state used to evaluate query resolution. -/
def sampleChecker : CheckerState :=
  { user_agent := "me" ++ uaSuffix
    endpoint := "latest"
    item_name_map := [("dragon scimitar", "1333"), ("dragon dagger", "1215")]
    item_id_map := [("1333", "Dragon scimitar"), ("1215", "Dragon dagger")]
    itemdata :=
      [("1333", ⟨"1333", 60000, 59000, 10, 11⟩),
       ("1050", ⟨"1050", 9000000, 8800000, 12, 13⟩)]
    last_updated := none
    keep_updated := false }

/-! ## Claim theorems -/

/-- C3: for the highscores fetch, six consecutive HTTP 404 responses make
snapshot construction fail with the not-found ValueError, while 404 on the
first four attempts and 200 on the fifth makes the fetch succeed with the
body of the fifth attempt, which construction then parses: at most 5 retries
after the first attempt, 6 attempts total. -/
theorem claim_C3 (t : EntriesTable) (rsn : String) :
    (∀ r1 r2 r3 r4 r5 r6 : HttpResp HsDoc, ∀ rest : List (HttpResp HsDoc),
      r1.status = 404 → r2.status = 404 → r3.status = 404 → r4.status = 404 →
      r5.status = 404 → r6.status = 404 →
      hsBuildSnapshot t rsn "default" (r1 :: r2 :: r3 :: r4 :: r5 :: r6 :: rest) =
        .error (.notFound rsn)) ∧
    (∀ r1 r2 r3 r4 r5 : HttpResp HsDoc, ∀ rest : List (HttpResp HsDoc),
      r1.status = 404 → r2.status = 404 → r3.status = 404 → r4.status = 404 →
      r5.status = 200 →
      hsFetchData rsn "default" (r1 :: r2 :: r3 :: r4 :: r5 :: rest) = .ok r5.body ∧
      hsBuildSnapshot t rsn "default" (r1 :: r2 :: r3 :: r4 :: r5 :: rest) =
        parseData t [] r5.body) := by
  constructor
  · intro r1 r2 r3 r4 r5 r6 rest h1 h2 h3 h4 h5 h6
    simp [hsBuildSnapshot, hsFetchData, parseTarget, hsFetchLoop, h1, h2, h3, h4, h5, h6]
  · intro r1 r2 r3 r4 r5 rest h1 h2 h3 h4 h5
    constructor <;>
      simp [hsBuildSnapshot, hsFetchData, parseTarget, hsFetchLoop, h1, h2, h3, h4, h5]

/-- C3 witness: six 404s fail, four 404s then a 200 succeed with the fifth
body. -/
theorem claim_C3_witness :
    hsBuildSnapshot sampleTable "player" "default"
        [⟨404, sampleDoc⟩, ⟨404, sampleDoc⟩, ⟨404, sampleDoc⟩, ⟨404, sampleDoc⟩,
         ⟨404, sampleDoc⟩, ⟨404, sampleDoc⟩] = .error (.notFound "player") ∧
    hsFetchData "player" "default"
        [⟨404, sampleDoc⟩, ⟨404, sampleDoc⟩, ⟨404, sampleDoc⟩, ⟨404, sampleDoc⟩,
         ⟨200, sampleDoc⟩] = .ok sampleDoc :=
  ⟨(claim_C3 sampleTable "player").1 _ _ _ _ _ _ [] rfl rfl rfl rfl rfl rfl,
   ((claim_C3 sampleTable "player").2 _ _ _ _ _ [] rfl rfl rfl rfl rfl).1⟩

/-- C4: the retry predicate is asymmetric: the highscores fetch retries
only on status exactly 404 (any other status, errors included, proceeds to
decode the body), while both pricing fetch loops (mapping and price
document) retry on any status at or above 400 and proceed below 400. -/
theorem claim_C4 (α : Type) (r : HttpResp α) (rest : List (HttpResp α)) (rsn : String) :
    (r.status ≠ 404 → hsFetchLoop rsn 5 0 (r :: rest) = .ok r.body) ∧
    (r.status = 404 → hsFetchLoop rsn 5 0 (r :: rest) = hsFetchLoop rsn 5 1 rest) ∧
    (r.status ≥ 400 → rtFetchLoop 5 0 (r :: rest) = rtFetchLoop 5 1 rest) ∧
    (r.status < 400 → rtFetchLoop 5 0 (r :: rest) = .ok r.body) ∧
    (∀ mr : HttpResp (List MapEntry), ∀ mrest, mr.status ≥ 400 →
      mappingFetch (mr :: mrest) = rtFetchLoop 5 1 mrest) ∧
    (∀ dr : HttpResp (List (String × LatestEntryJson)), ∀ drest, dr.status ≥ 400 →
      rtFetchData (dr :: drest) = rtFetchLoop 5 1 drest) := by
  refine ⟨?_, ?_, ?_, ?_, ?_, ?_⟩
  · intro h; simp [hsFetchLoop, h]
  · intro h; simp [hsFetchLoop, h]
  · intro h
    have h' : r.status > 399 := h
    simp [rtFetchLoop, h']
  · intro h
    have h' : ¬r.status > 399 := by omega
    simp [rtFetchLoop, h']
  · intro mr mrest h
    have h' : mr.status > 399 := h
    simp [mappingFetch, rtFetchLoop, h']
  · intro dr drest h
    have h' : dr.status > 399 := h
    simp [rtFetchData, rtFetchLoop, h']

/-- C4 witness: a 500 response is decoded immediately by the highscores
loop but retried by the pricing loop. -/
theorem claim_C4_witness :
    hsFetchLoop "player" 5 0 [({ status := 500, body := sampleDoc } : HttpResp HsDoc)] =
      .ok sampleDoc ∧
    rtFetchLoop 5 0 [({ status := 500, body := (7 : Nat) } : HttpResp Nat)] =
      rtFetchLoop 5 1 ([] : List (HttpResp Nat)) :=
  ⟨(claim_C4 HsDoc ⟨500, sampleDoc⟩ [] "player").1 (by decide),
   (claim_C4 Nat ⟨500, 7⟩ [] "player").2.2.1 (by decide)⟩

/-- C7: is_ironman returns true when the ironman-category query succeeds,
false when it raises not-found but the default-category query succeeds,
and raises the player-not-found ValueError when both raise not-found. -/
theorem claim_C7 (rsn : String) (ironRs defRs : List Nat) :
    (queryHs rsn "ironman" ironRs = .ok () → isIronman rsn ironRs defRs = .ok true) ∧
    (queryHs rsn "ironman" ironRs = .error (.notFound rsn) →
      queryHs rsn "default" defRs = .ok () →
      isIronman rsn ironRs defRs = .ok false) ∧
    (queryHs rsn "ironman" ironRs = .error (.notFound rsn) →
      queryHs rsn "default" defRs = .error (.notFound rsn) →
      isIronman rsn ironRs defRs = .error (.notFound rsn)) := by
  refine ⟨?_, ?_, ?_⟩
  · intro h1; simp [isIronman, h1]
  · intro h1 h2; simp [isIronman, h1, h2, isValueError]
  · intro h1 h2; simp [isIronman, h1, h2, isValueError]

/-- C7 witness: six 404s on the ironman board, then a 200 on the default
board, yields false. -/
theorem claim_C7_witness :
    queryHs "player" "ironman" [404, 404, 404, 404, 404, 404] =
      .error (.notFound "player") ∧
    queryHs "player" "default" [200] = .ok () ∧
    isIronman "player" [404, 404, 404, 404, 404, 404] [200] = .ok false :=
  ⟨by decide, by decide, (claim_C7 "player" _ _).2.1 (by decide) (by decide)⟩

/-- The state produced by a successful construction in the C9 witness. -/
def c9st : CheckerState :=
  { user_agent := "me" ++ uaSuffix
    endpoint := "latest"
    item_name_map := [("coal", "453")]
    item_id_map := [("453", "Coal")]
    itemdata := []
    last_updated := none
    keep_updated := false }

/-- C9: a missing or empty user-agent string fails the construction assert
for every possible sequence of network responses (so before any network
call), and any successful construction from a non-empty string carries
exactly that string with the fixed library suffix appended. -/
theorem claim_C9 :
    (∀ (ep : String) (ku : Bool) (mrs : List (HttpResp (List MapEntry))),
      checkerInit none ep ku mrs = .error .configError) ∧
    (∀ (ep : String) (ku : Bool) (mrs : List (HttpResp (List MapEntry))),
      checkerInit (some "") ep ku mrs = .error .configError) ∧
    (∀ (s ep : String) (ku : Bool) (mrs : List (HttpResp (List MapEntry)))
      (st : CheckerState), s ≠ "" → checkerInit (some s) ep ku mrs = .ok st →
      st.user_agent = s ++ uaSuffix) := by
  refine ⟨fun ep ku mrs => rfl, fun ep ku mrs => rfl, ?_⟩
  intro s ep ku mrs st hs hok
  simp only [checkerInit, if_neg hs] at hok
  cases hm : mappingFetch mrs with
  | error e => rw [hm] at hok; exact absurd hok (by simp)
  | ok mapping =>
    rw [hm] at hok
    cases hok
    rfl

/-- C9 witness: construction with the empty response list still fails on a
missing user agent, and a successful construction appends the suffix. -/
theorem claim_C9_witness :
    checkerInit none "latest" false [] = .error .configError ∧
    checkerInit (some "me") "latest" false [⟨200, [⟨453, "Coal"⟩]⟩] = .ok c9st ∧
    c9st.user_agent = "me" ++ uaSuffix :=
  ⟨claim_C9.1 "latest" false [], by decide,
   claim_C9.2.2 "me" "latest" false [⟨200, [⟨453, "Coal"⟩]⟩] c9st (by decide) (by decide)⟩

/-- C5: prefix resolution lowercases the query and returns the id of the
first name in the natural iteration order of the table whose lowercase form
starts with it (the find-first-match reading of the spec); queries with
equal lowercase forms resolve identically; and when no name matches, the
string lookup raises the no-id-found KeyError. -/
theorem claim_C5 (st : CheckerState) (q : String) :
    getItemId st q = resolveFirstMatch st.item_name_map q ∧
    (∀ q', strLower q = strLower q' → getItemId st q = getItemId st q') ∧
    (getItemId st q = none → getPriceInfoFromString st q = .error (.noIdFound q)) := by
  refine ⟨?_, ?_, ?_⟩
  · simpa [getItemId, resolveFirstMatch] using
      scanNameMap_eq_find (strLower q) st.item_name_map
  · intro q' hq; simp [getItemId, hq]
  · intro h; simp [getPriceInfoFromString, h]

/-- C5 witness: the two capitalizations of dragon resolve identically, and
an unmatched query raises. -/
theorem claim_C5_witness :
    getItemId sampleChecker "dragon" = getItemId sampleChecker "Dragon" ∧
    getItemId sampleChecker "dragon" = some "1333" ∧
    getPriceInfoFromString sampleChecker "zzz" = .error (.noIdFound "zzz") :=
  ⟨(claim_C5 sampleChecker "dragon").2.1 "Dragon" (by decide), by decide,
   (claim_C5 sampleChecker "zzz").2.2 (by decide)⟩

/-- C6: a query that parses as an integer is answered by a direct snapshot
lookup of str(int(query)) - raising KeyError when the id is absent - and
the result never depends on the name table, so no prefix matching happens
even when the digits would textually match a name. -/
theorem claim_C6 (st : CheckerState) (q : String) (n : Int) (h : pyInt q = some n) :
    getPriceInfo st q = getPriceInfoFromId st (intToStr n) ∧
    getPriceInfoFromId st (intToStr n) =
      (match dlookup (intToStr n) st.itemdata with
       | some info => Except.ok info
       | none => Except.error (.keyError (intToStr n))) ∧
    (∀ nm, getPriceInfo { st with item_name_map := nm } q = getPriceInfo st q) := by
  refine ⟨by simp [getPriceInfo, h], rfl, ?_⟩
  intro nm
  simp [getPriceInfo, h, getPriceInfoFromId]

/-- C6 witness: the query 1050 goes through the id path. -/
theorem claim_C6_witness :
    pyInt "1050" = some 1050 ∧
    getPriceInfo sampleChecker "1050" = getPriceInfoFromId sampleChecker (intToStr 1050) ∧
    getPriceInfo sampleChecker "1050" = .ok ⟨"1050", 9000000, 8800000, 12, 13⟩ :=
  ⟨by decide, (claim_C6 sampleChecker "1050" 1050 (by decide)).1, by decide⟩

/-- C10: the empty query does not parse as an integer, and the empty
string starts every name, so resolution returns the id of the first entry
of the name map; when that id is in the snapshot, get_price_info returns
its record rather than a not-found error. -/
theorem claim_C10 (st : CheckerState) (k v : String) (rest : List (String × String))
    (info : LatestRTPriceInfo)
    (hmap : st.item_name_map = (k, v) :: rest)
    (hdata : dlookup v st.itemdata = some info) :
    getItemId st "" = some v ∧ getPriceInfo st "" = .ok info := by
  have hid : getItemId st "" = some v := by
    have hd : (strLower "").data = [] := rfl
    have hpre : pyStartswith k (strLower "") = true := by
      simp [pyStartswith, hd, List.isPrefixOf]
    simp [getItemId, hmap, scanNameMap, hpre]
  have hint : pyInt "" = none := by decide
  refine ⟨hid, ?_⟩
  simp [getPriceInfo, hint, getPriceInfoFromString, hid, hdata]

/-- C10 witness at the sample checker. -/
theorem claim_C10_witness :
    getItemId sampleChecker "" = some "1333" ∧
    getPriceInfo sampleChecker "" = .ok ⟨"1333", 60000, 59000, 10, 11⟩ :=
  claim_C10 sampleChecker "dragon scimitar" "1333" [("dragon dagger", "1215")]
    ⟨"1333", 60000, 59000, 10, 11⟩ (by decide) (by decide)

/-- C8: any number of update calls leaves the id-to-name and
lowercase-name-to-id tables (and the user agent and endpoint) of the
checker unchanged: updates replace only the price records and timestamp. -/
theorem claim_C8 (st : CheckerState)
    (us : List (List (HttpResp (List (String × LatestEntryJson))) × Nat))
    (st' : CheckerState) (h : runUpdates st us = .ok st') :
    st'.item_name_map = st.item_name_map ∧ st'.item_id_map = st.item_id_map ∧
    st'.user_agent = st.user_agent ∧ st'.endpoint = st.endpoint := by
  induction us generalizing st with
  | nil =>
    simp only [runUpdates] at h
    cases h
    exact ⟨rfl, rfl, rfl, rfl⟩
  | cons u rest ih =>
    obtain ⟨rs, now⟩ := u
    simp only [runUpdates] at h
    cases hu : checkerUpdate st rs now with
    | error e => rw [hu] at h; exact absurd h (by simp)
    | ok st1 =>
      rw [hu] at h
      have hframe : st1.item_name_map = st.item_name_map ∧
          st1.item_id_map = st.item_id_map ∧
          st1.user_agent = st.user_agent ∧ st1.endpoint = st.endpoint := by
        simp only [checkerUpdate] at hu
        cases hf : rtFetchData rs with
        | error e => rw [hf] at hu; exact absurd hu (by simp)
        | ok data =>
          rw [hf] at hu
          cases hu
          exact ⟨rfl, rfl, rfl, rfl⟩
      obtain ⟨e1, e2, e3, e4⟩ := ih st1 h
      exact ⟨e1.trans hframe.1, e2.trans hframe.2.1,
        e3.trans hframe.2.2.1, e4.trans hframe.2.2.2⟩

/-- C8 witness: one concrete update leaves both index tables unchanged. -/
theorem claim_C8_witness :
    runUpdates sampleChecker [([⟨200, []⟩], 7)] =
      .ok { sampleChecker with last_updated := some 7 } ∧
    ({ sampleChecker with last_updated := some 7 } : CheckerState).item_name_map =
      sampleChecker.item_name_map ∧
    ({ sampleChecker with last_updated := some 7 } : CheckerState).item_id_map =
      sampleChecker.item_id_map :=
  ⟨by decide,
   (claim_C8 sampleChecker [([⟨200, []⟩], 7)] _ (by decide)).1,
   (claim_C8 sampleChecker [([⟨200, []⟩], 7)] _ (by decide)).2.1⟩

/-- The price document fetched by the first update in the C2 scenario. -/
def c2doc1 : List (String × LatestEntryJson) := [("2", ⟨181, 180, 5, 6⟩)]

/-- The checker state right after construction in the C2 scenario. -/
def c2st0 : CheckerState :=
  { user_agent := "x" ++ uaSuffix
    endpoint := "latest"
    item_name_map := [("coal", "2")]
    item_id_map := [("2", "Coal")]
    itemdata := []
    last_updated := none
    keep_updated := false }

/-- The state after the first update (one priced item). -/
def c2st1 : CheckerState :=
  { c2st0 with itemdata := [("2", ⟨"2", 181, 180, 5, 6⟩)], last_updated := some 0 }

/-- The state after a second update whose fetched document was empty: the
stale record survives. -/
def c2st2 : CheckerState := { c2st1 with last_updated := some 1 }

/-- C2 counterexample: a checker constructed and updated with a document
pricing item 2, then refreshed with a document that no longer contains
item 2, still reports a price for item 2 - a stale entry survives an
update, so a snapshot key need not be present in the most recently
fetched document. -/
theorem claim_C2_cex :
    checkerInit (some "x") "latest" false [⟨200, [⟨2, "Coal"⟩]⟩] = .ok c2st0 ∧
    checkerUpdate c2st0 [⟨200, c2doc1⟩] 0 = .ok c2st1 ∧
    checkerUpdate c2st1 [⟨200, ([] : List (String × LatestEntryJson))⟩] 1 = .ok c2st2 ∧
    dlookup "2" c2st2.itemdata = some ⟨"2", 181, 180, 5, 6⟩ ∧
    dlookup "2" ([] : List (String × LatestEntryJson)) = none :=
  ⟨by decide, by decide, by decide, by decide, rfl⟩

/-- C2 (amended): construction leaves the snapshot empty, and an update
merges the fetched document into it: a key present in the document maps to
the record built from the document, while a key absent from the document
keeps whatever binding it had before, so after construction plus a single
update the snapshot holds exactly exactly the items of the fetched document (no
synthetic zero entries), but later refreshes let stale entries survive. -/
theorem claim_C2 :
    (∀ (ua : Option String) (ep : String) (ku : Bool)
      (mrs : List (HttpResp (List MapEntry))) (st : CheckerState),
      checkerInit ua ep ku mrs = .ok st → st.itemdata = []) ∧
    (∀ (st : CheckerState) (data : List (String × LatestEntryJson)) (now : Nat)
      (k : String), (dkeys data).Nodup →
      dlookup k (processData st data now).itemdata =
        (match dlookup k data with
         | some e => some ⟨k, e.high, e.low, e.highTime, e.lowTime⟩
         | none => dlookup k st.itemdata)) ∧
    (∀ (st : CheckerState) (rs : List (HttpResp (List (String × LatestEntryJson))))
      (data : List (String × LatestEntryJson)) (now : Nat) (st' : CheckerState)
      (k : String), (dkeys data).Nodup →
      rtFetchData rs = .ok data → checkerUpdate st rs now = .ok st' →
      st.itemdata = [] →
      dlookup k st'.itemdata =
        (dlookup k data).map (fun e => ⟨k, e.high, e.low, e.highTime, e.lowTime⟩)) := by
  refine ⟨?_, ?_, ?_⟩
  · intro ua ep ku mrs st h
    match ua with
    | none => exact absurd h (by simp [checkerInit])
    | some s =>
      by_cases hs : s = ""
      · subst hs; exact absurd h (by simp [checkerInit])
      · simp only [checkerInit, if_neg hs] at h
        cases hm : mappingFetch mrs with
        | error e => rw [hm] at h; exact absurd h (by simp)
        | ok mapping => rw [hm] at h; cases h; rfl
  · intro st data now k hnd
    simpa [processData] using dlookup_processFold st.itemdata data k hnd
  · intro st rs data now st' k hnd hf hu hemp
    simp only [checkerUpdate, hf] at hu
    cases hu
    simp only [processData]
    rw [dlookup_processFold st.itemdata data k hnd, hemp]
    cases hd : dlookup k data <;> simp [dlookup]

/-- C2 witness: construction followed by one update yields exactly the
single item of the fetched document. -/
theorem claim_C2_witness :
    rtFetchData [⟨200, c2doc1⟩] = .ok c2doc1 ∧
    dlookup "2" c2st1.itemdata = some ⟨"2", 181, 180, 5, 6⟩ :=
  ⟨by decide,
   (claim_C2.2.2 c2st0 [⟨200, c2doc1⟩] c2doc1 0 c2st1 "2"
      (by decide) (by decide) (by decide) rfl).trans (by decide)⟩

/-- C1 counterexample: a document whose second skill entry carries an
unrecognized name parses without error (the entry is skipped with a
warning), yet the xp, level, and whole-score accessors then raise
AttributeError on the never-assigned canonical attribute instead of
returning full-length vectors, so skipped entries do make the accessors
fail. -/
theorem claim_C1_cex :
    hsBuildSnapshot sampleTable "player" "default" [⟨200, skewDoc⟩] = .ok skewStore ∧
    getAllXp sampleTable skewStore = .error (.attrError "defence") ∧
    getAllLevels sampleTable skewStore = .error (.attrError "defence") ∧
    getAllScores sampleTable skewStore = .error (.attrError "defence") :=
  ⟨by decide, by decide, by decide, by decide⟩

/-- C1 (amended): whenever construction succeeds and an accessor returns a
vector at all, that vector has length exactly the canonical count for its
kind (skills + activities + bosses for the whole-score vector), so skipped
or omitted entries never shorten an accessor result - but they can make
the accessor raise AttributeError instead of returning. -/
theorem claim_C1 (t : EntriesTable) (rsn target : String)
    (rs : List (HttpResp HsDoc)) (store : HsStore)
    (_hbuild : hsBuildSnapshot t rsn target rs = .ok store) :
    (∀ xs, getAllScores t store = .ok xs →
      xs.length = t.skill_attributes.length + t.activity_attributes.length +
        t.boss_attributes.length) ∧
    (∀ xs, getAllLevels t store = .ok xs → xs.length = t.skill_attributes.length) ∧
    (∀ xs, getAllXp t store = .ok xs → xs.length = t.skill_attributes.length) ∧
    (∀ xs, getAllActivityScores t store = .ok xs →
      xs.length = t.activity_attributes.length) ∧
    (∀ xs, getAllKc t store = .ok xs → xs.length = t.boss_attributes.length) := by
  refine ⟨?_, ?_, ?_, ?_, ?_⟩
  · intro xs h
    simp only [getAllScores] at h
    cases h1 : exceptMap (readSkillXp store) t.skill_attributes with
    | error e => rw [h1] at h; exact absurd h (by simp)
    | ok as =>
      rw [h1] at h
      cases h2 : exceptMap (readActivityScore store) t.activity_attributes with
      | error e => rw [h2] at h; exact absurd h (by simp)
      | ok bs =>
        rw [h2] at h
        cases h3 : exceptMap (readBossKc store) t.boss_attributes with
        | error e => rw [h3] at h; exact absurd h (by simp)
        | ok cs =>
          rw [h3] at h
          cases h
          simp [exceptMap_ok_length _ _ _ h1, exceptMap_ok_length _ _ _ h2,
            exceptMap_ok_length _ _ _ h3, Nat.add_assoc]
  · intro xs h; exact exceptMap_ok_length _ _ _ h
  · intro xs h; exact exceptMap_ok_length _ _ _ h
  · intro xs h; exact exceptMap_ok_length _ _ _ h
  · intro xs h; exact exceptMap_ok_length _ _ _ h

/-- C1 witness: a fully recognized document yields accessor vectors of
exactly the canonical lengths. -/
theorem claim_C1_witness :
    hsBuildSnapshot sampleTable "player" "default" [⟨200, sampleDoc⟩] = .ok sampleStore ∧
    getAllXp sampleTable sampleStore = .ok [13034431, 1986068] ∧
    ([13034431, 1986068] : List Int).length = sampleTable.skill_attributes.length ∧
    getAllScores sampleTable sampleStore = .ok [13034431, 1986068, 42, 1500] ∧
    ([13034431, 1986068, 42, 1500] : List Int).length =
      sampleTable.skill_attributes.length + sampleTable.activity_attributes.length +
        sampleTable.boss_attributes.length :=
  ⟨by decide, by decide,
   (claim_C1 sampleTable "player" "default" [⟨200, sampleDoc⟩] sampleStore
      (by decide)).2.2.1 _ (by decide),
   by decide,
   (claim_C1 sampleTable "player" "default" [⟨200, sampleDoc⟩] sampleStore
      (by decide)).1 _ (by decide)⟩

end OsrsTools
